import Mathlib

/-!
# Verification of the AI-plan generation and validation pipeline

A shallow embedding of the Convex backend logic of the Hevy Gym Trainer
application: the plan schema validators `validateWorkoutPlan` and
`validateDietPlan` (convex/http.ts), the `/vapi/generate-program` HTTP
orchestrator (convex/http.ts), the `createPlan` mutation (convex/plans.ts)
and the `syncUser` mutation (convex/users.ts).

JavaScript runtime values are modelled by the inductive type `JSVal`;
JavaScript numbers are modelled as `Option ℚ` where `none` stands for `NaN`
(the source only ever manipulates finite decimal numbers, so rationals are
faithful; `Infinity` and exponent/hex numeric literals do not occur in any
value the source produces or that these theorems mention).
-/

/-- A JavaScript runtime value, as produced by `JSON.parse` and manipulated
by the validators. `num none` is `NaN`. -/
inductive JSVal where
  | undef
  | null
  | bool (b : Bool)
  | num (n : Option ℚ)
  | str (s : String)
  | arr (elems : List JSVal)
  | obj (fields : List (String × JSVal))

namespace JSVal

/-- JavaScript truthiness: `undefined`, `null`, `false`, `0`, `NaN` and `""`
are falsy, everything else (including `[]` and `\x7b\x7d`) is truthy. -/
def truthy : JSVal → Bool
  | .undef => false
  | .null => false
  | .bool b => b
  | .num none => false
  | .num (some q) => q != 0
  | .str s => s != ""
  | .arr _ => true
  | .obj _ => true

/-- The JavaScript `||` operator: left operand if truthy, else right. -/
def jsOr (v d : JSVal) : JSVal := if v.truthy then v else d

/-- `Array.isArray`. -/
def isArray : JSVal → Bool
  | .arr _ => true
  | _ => false

/-- JavaScript property access `v.f`: throws a `TypeError` on `null` and
`undefined`; yields `undefined` for a missing key or a non-object base. -/
def getField (v : JSVal) (f : String) : Except String JSVal :=
  match v with
  | .undef => .error "TypeError: undefined"
  | .null => .error "TypeError: null"
  | .obj fs => .ok ((fs.lookup f).getD .undef)
  | _ => .ok .undef

end JSVal

/-- Decimal digits to a natural number. -/
def digitsToNat (ds : List Char) : Nat := ds.foldl (fun a c => a * 10 + (c.toNat - 48)) 0

/-- Parse an unsigned decimal literal (`"10"`, `"10.5"`, `".5"`, `"5."`);
anything else is `NaN` (`none`). -/
def parseDecimalCore (cs : List Char) : Option ℚ :=
  let ip := cs.takeWhile Char.isDigit
  let rest := cs.dropWhile Char.isDigit
  match rest with
  | [] => if ip.isEmpty then none else some ((digitsToNat ip : ℚ))
  | c :: rest2 =>
    if c = '.' then
      let fp := rest2.takeWhile Char.isDigit
      let rest3 := rest2.dropWhile Char.isDigit
      if rest3.isEmpty = false then none
      else if ip.isEmpty && fp.isEmpty then none
      else some (mkRat ((digitsToNat ip * 10 ^ fp.length + digitsToNat fp : Nat) : Int) (10 ^ fp.length))
    else none

/-- JavaScript whitespace for string trimming. -/
def isSpaceChar (c : Char) : Bool := c = ' ' || c = '\t' || c = '\n' || c = '\r'

/-- Trim leading and trailing whitespace from a character list. -/
def trimChars (cs : List Char) : List Char :=
  ((cs.dropWhile isSpaceChar).reverse.dropWhile isSpaceChar).reverse

/-- JavaScript string-to-number conversion for the decimal literals the
source manipulates: a whitespace-only string is `0`, an optionally signed
decimal literal is its value, anything else is `NaN`. -/
def parseNum (s : String) : Option ℚ :=
  match trimChars s.toList with
  | [] => some 0
  | c :: cs =>
    if c = '+' then parseDecimalCore cs
    else if c = '-' then (parseDecimalCore cs).map (fun q => -q)
    else parseDecimalCore (c :: cs)

/-- Number of times `p` divides `n` (fuelled; call with `fuel := n`). -/
def countFactor (p : Nat) : Nat → Nat → Nat
  | 0, _ => 0
  | fuel + 1, n => if n % p == 0 && decide (2 ≤ n) then countFactor p fuel (n / p) + 1 else 0

/-- Decimal rendering of a nonnegative rational whose reduced denominator is
of the form `2^a * 5^b` — which is every finite JavaScript number. -/
def qToStringNN (q : ℚ) : String :=
  if q.den = 1 then toString q.num.natAbs
  else
    let k := max (countFactor 2 q.den q.den) (countFactor 5 q.den q.den)
    if q.den ∣ 10 ^ k then
      let scaled := q.num.natAbs * (10 ^ k / q.den)
      let s := toString scaled
      let s := if s.length < k + 1 then String.mk (List.replicate (k + 1 - s.length) '0') ++ s else s
      String.take s (s.length - k) ++ "." ++ String.drop s (s.length - k)
    else toString q.num ++ " / " ++ toString q.den

/-- Decimal rendering of a finite JavaScript number. -/
def qToString (q : ℚ) : String := if q < 0 then "-" ++ qToStringNN (-q) else qToStringNN q

mutual

/-- JavaScript `String(v)` (ToString): arrays join their elements with `","`,
`null`/`undefined` elements joining as `""`; plain objects stringify to
`"[object Object]"`. -/
def jsToString : JSVal → String
  | .undef => "undefined"
  | .null => "null"
  | .bool b => if b then "true" else "false"
  | .num none => "NaN"
  | .num (some q) => qToString q
  | .str s => s
  | .arr xs => String.intercalate "," (jsElemStrings xs)
  | .obj _ => "[object Object]"

/-- Element strings for `Array.prototype.join`. -/
def jsElemStrings : List JSVal → List String
  | [] => []
  | .undef :: rest => "" :: jsElemStrings rest
  | .null :: rest => "" :: jsElemStrings rest
  | x :: rest => jsToString x :: jsElemStrings rest

end

/-- JavaScript `Number(v)` (ToNumber): `undefined` is `NaN`, `null` is `0`,
booleans are `0`/`1`, strings parse as decimal literals, arrays and objects
convert via their ToString. -/
def toNumber : JSVal → Option ℚ
  | .undef => none
  | .null => some 0
  | .bool b => some (if b then 1 else 0)
  | .num n => n
  | .str s => parseNum s
  | v => parseNum (jsToString v)

/-- The validators' numeric coercion `Number(v) || d`: the converted number
unless it is `NaN` or `0`, in which case the default `d`. -/
def numCoerce (v : JSVal) (d : ℚ) : ℚ :=
  match toNumber v with
  | none => d
  | some q => if q = 0 then d else q

/-- `Array.prototype.map` with a callback that may throw: stops at the first
thrown error. -/
def mapExcept (f : JSVal → Except String JSVal) : List JSVal → Except String (List JSVal)
  | [] => .ok []
  | x :: xs => do
    let y ← f x
    let ys ← mapExcept f xs
    return y :: ys

/-- `(v || []).map f` as written in the validators: a falsy `v` maps over the
empty array; a truthy non-array has no `.map` and throws. -/
def jsArrayMap (v : JSVal) (f : JSVal → Except String JSVal) : Except String JSVal :=
  match v.jsOr (.arr []) with
  | .arr xs => do
    let ys ← mapExcept f xs
    return .arr ys
  | _ => .error "TypeError: not a function"

/-- The per-routine coercion lambda inside `validateWorkoutPlan`
(convex/http.ts): name/description stringified with fallbacks, sets/reps/
duration numerically coerced with defaults 1/10/15. -/
def validateRoutine (r : JSVal) : Except String JSVal := do
  let name ← r.getField "name"
  let sets ← r.getField "sets"
  let reps ← r.getField "reps"
  let duration ← r.getField "duration"
  let description ← r.getField "description"
  return .obj [
    ("name", .str (jsToString (name.jsOr (.str "Unnamed Routine")))),
    ("sets", .num (some (numCoerce sets 1))),
    ("reps", .num (some (numCoerce reps 10))),
    ("duration", .num (some (numCoerce duration 15))),
    ("description", .str (jsToString (description.jsOr (.str "No description"))))]

/-- The per-exercise coercion lambda inside `validateWorkoutPlan`. -/
def validateExercise (ex : JSVal) : Except String JSVal := do
  let day ← ex.getField "day"
  let routines ← ex.getField "routines"
  let routines2 ← jsArrayMap routines validateRoutine
  return .obj [
    ("day", .str (jsToString (day.jsOr (.str "Unknown")))),
    ("routines", routines2)]

/-- `validateWorkoutPlan` (convex/http.ts): non-array `schedule` becomes
`[]`; `(plan.exercises || [])` is mapped through the exercise coercion. -/
def validateWorkoutPlan (plan : JSVal) : Except String JSVal := do
  let schedule ← plan.getField "schedule"
  let exercises ← plan.getField "exercises"
  let exercises2 ← jsArrayMap exercises validateExercise
  return .obj [
    ("schedule", if schedule.isArray then schedule else .arr []),
    ("exercises", exercises2)]

/-- `Array.isArray(v) ? v.map(String) : []` — the `foods` coercion inside
`validateDietPlan`. -/
def coerceFoods : JSVal → JSVal
  | .arr xs => .arr (xs.map (fun x => .str (jsToString x)))
  | _ => .arr []

/-- `Array.isArray(v) ? v.map(Number) : []` — the `protein` coercion inside
`validateDietPlan`. -/
def coerceProtein : JSVal → JSVal
  | .arr xs => .arr (xs.map (fun x => .num (toNumber x)))
  | _ => .arr []

/-- The per-meal coercion lambda inside `validateDietPlan`: name stringified
with fallback, `foods` mapped through `String` when an array (else `[]`),
`protein` mapped through `Number` when an array (else `[]`). -/
def validateMeal (m : JSVal) : Except String JSVal := do
  let name ← m.getField "name"
  let foods ← m.getField "foods"
  let protein ← m.getField "protein"
  return .obj [
    ("name", .str (jsToString (name.jsOr (.str "Unnamed Meal")))),
    ("foods", coerceFoods foods),
    ("protein", coerceProtein protein)]

/-- `validateDietPlan` (convex/http.ts): `dailyCalories` coerced with
default 2000; `(plan.meals || [])` is mapped through the meal coercion. -/
def validateDietPlan (plan : JSVal) : Except String JSVal := do
  let dailyCalories ← plan.getField "dailyCalories"
  let meals ← plan.getField "meals"
  let meals2 ← jsArrayMap meals validateMeal
  return .obj [
    ("dailyCalories", .num (some (numCoerce dailyCalories 2000))),
    ("meals", meals2)]

/-- The workout prompt template of the `/vapi/generate-program` handler
(convex/http.ts), with the payload attributes interpolated. -/
def workoutPrompt (age weight fitness_goal : JSVal) : String :=
  "Create a workout plan for a " ++ jsToString age ++ "-year-old aiming for " ++
  jsToString fitness_goal ++ ".\n        Weight: " ++ jsToString weight ++
  ". Return ONLY JSON:\n        \x7b \"schedule\": [\"Day1\", \"Day2\"], \"exercises\": [\x7b\"day\": \"Day1\", \"routines\": [\x7b\"name\": \"Squats\", \"sets\": 3, \"reps\": 10, \"duration\": 5, \"description\": \"...\"\x7d]\x7d] \x7d"

/-- The diet prompt template of the `/vapi/generate-program` handler. -/
def dietPrompt (fitness_goal : JSVal) : String :=
  "Create a diet plan for " ++ jsToString fitness_goal ++
  ".\n        Return ONLY JSON:\n        \x7b \"dailyCalories\": 2000, \"meals\": [\x7b\"name\": \"Breakfast\", \"foods\": [\"Eggs\"], \"protein\": [12]\x7d] \x7d"

/-- A document of the `plans` table (convex/schema.ts): the payload passed to
`ctx.db.insert("plans", ...)` by the `createPlan` mutation. -/
structure Plan where
  userId : JSVal
  name : String
  workoutPlan : JSVal
  dietPlan : JSVal
  isActive : Bool

/-- The `createPlan` mutation (convex/plans.ts): inserts one new document
into the `plans` table and returns its identifier (modelled as the index of
the appended document). -/
def createPlan (plans : List Plan) (args : Plan) : List Plan × Nat :=
  (plans ++ [args], plans.length)

/-- The try-block body of the `/vapi/generate-program` HTTP action
(convex/http.ts): destructure the payload, build the two prompts, call the
generative model twice, parse and validate each response. External effects
are parameters: `gen` is the generative-model client
(`model.generateContent` + `response.text()`) and `parse` is `JSON.parse`;
each may throw (return `.error`). -/
def planPipeline (payload : JSVal) (gen : String → Except String String)
    (parse : String → Except String JSVal) :
    Except String (JSVal × JSVal × JSVal × JSVal) := do
  let user_id ← payload.getField "user_id"
  let age ← payload.getField "age"
  let weight ← payload.getField "weight"
  let fitness_goal ← payload.getField "fitness_goal"
  let workoutText ← gen (workoutPrompt age weight fitness_goal)
  let dietText ← gen (dietPrompt fitness_goal)
  let workoutRaw ← parse workoutText
  let wp ← validateWorkoutPlan workoutRaw
  let dietRaw ← parse dietText
  let dp ← validateDietPlan dietRaw
  pure (user_id, fitness_goal, wp, dp)

/-- The `/vapi/generate-program` HTTP action (convex/http.ts): run the
pipeline, then save the validated pair through the `createPlan` mutation and
answer 200 with the plan id; any thrown error is caught and answered with
status 500 and no insert. `plans` is the current plan store; the final store
is returned alongside the response. -/
def generateProgram (payload : JSVal) (gen : String → Except String String)
    (parse : String → Except String JSVal) (plans : List Plan) :
    Nat × Option Nat × List Plan :=
  match planPipeline payload gen parse with
  | .error _ => (500, none, plans)
  | .ok (user_id, fitness_goal, wp, dp) =>
    let inserted := createPlan plans
      { userId := user_id
        name := jsToString fitness_goal ++ " Plan"
        workoutPlan := wp
        dietPlan := dp
        isActive := true }
    (200, some inserted.2, inserted.1)

/-- A document of the `users` table (convex/schema.ts). -/
structure User where
  clerkId : String
  email : String
  name : String
  image : Option String
deriving DecidableEq, Repr

/-- The `syncUser` mutation (convex/users.ts): queries the `users` table for
an existing document with the given `clerkId` and inserts a new document
only when none exists. -/
def syncUser (users : List User) (clerkId email name : String)
    (image : Option String) : List User :=
  match users.find? (fun u => u.clerkId == clerkId) with
  | some _ => users
  | none => users ++ [{ clerkId := clerkId, email := email, name := name, image := image }]

/-! ## Conformance predicates for the validated plan shapes (spec section 3) -/

/-- The value is a string. -/
def isStrVal : JSVal → Bool
  | .str _ => true
  | _ => false

/-- The value is a genuine (non-NaN) number. -/
def isNumVal : JSVal → Bool
  | .num (some _) => true
  | _ => false

/-- Field lookup on an object value. -/
def lookupField (v : JSVal) (f : String) : Option JSVal :=
  match v with
  | .obj fs => fs.lookup f
  | _ => none

/-- The value is an array all of whose elements satisfy `p`. -/
def isArrOf (p : JSVal → Bool) : JSVal → Bool
  | .arr xs => xs.all p
  | _ => false

/-- A validated routine: string `name`/`description`, numeric
`sets`/`reps`/`duration`. -/
def conformRoutine (r : JSVal) : Bool :=
  (lookupField r "name").any isStrVal &&
  (lookupField r "sets").any isNumVal &&
  (lookupField r "reps").any isNumVal &&
  (lookupField r "duration").any isNumVal &&
  (lookupField r "description").any isStrVal

/-- A validated exercise: string `day`, `routines` a sequence of conformant
routines. -/
def conformExercise (ex : JSVal) : Bool :=
  (lookupField ex "day").any isStrVal &&
  (lookupField ex "routines").any (isArrOf conformRoutine)

/-- A validated workout plan: `schedule` a sequence, `exercises` a sequence
of conformant exercises. -/
def conformWorkoutPlan (p : JSVal) : Bool :=
  (lookupField p "schedule").any JSVal.isArray &&
  (lookupField p "exercises").any (isArrOf conformExercise)

/-! ## No-empty-string side conditions for idempotence (claim C7) -/

/-- A validated routine whose coerced `name` and `description` are nonempty
strings. -/
def routineNoEmptyStr : JSVal → Bool
  | .obj [("name", .str n), ("sets", _), ("reps", _), ("duration", _), ("description", .str d)] =>
    n != "" && d != ""
  | _ => false

/-- A validated exercise whose coerced strings are all nonempty. -/
def exerciseNoEmptyStr : JSVal → Bool
  | .obj [("day", .str dy), ("routines", .arr rs)] => dy != "" && rs.all routineNoEmptyStr
  | _ => false

/-- A validated workout plan whose coerced strings are all nonempty. -/
def workoutNoEmptyStr : JSVal → Bool
  | .obj [("schedule", _), ("exercises", .arr exs)] => exs.all exerciseNoEmptyStr
  | _ => false

/-- A validated meal whose coerced `name` is a nonempty string. -/
def mealNoEmptyStr : JSVal → Bool
  | .obj [("name", .str n), ("foods", _), ("protein", _)] => n != ""
  | _ => false

/-- A validated diet plan whose coerced meal names are all nonempty. -/
def dietNoEmptyStr : JSVal → Bool
  | .obj [("dailyCalories", _), ("meals", .arr ms)] => ms.all mealNoEmptyStr
  | _ => false

/-- The Vapi intake payload delivered to `/vapi/generate-program`, with the
attributes the handler destructures. -/
def intakePayload (user_id age weight fitness_goal : JSVal) : JSVal :=
  .obj [("user_id", user_id), ("age", age), ("weight", weight), ("fitness_goal", fitness_goal)]

/-! ## Canonical shapes of validator outputs -/

/-- The exact shape of a routine produced by `validateRoutine`: all five
fields present in order, the numeric fields finite and nonzero. -/
def RoutineShape (r : JSVal) : Prop :=
  ∃ n s₁ s₂ s₃ d, r = .obj [("name", .str n), ("sets", .num (some s₁)),
    ("reps", .num (some s₂)), ("duration", .num (some s₃)), ("description", .str d)] ∧
    s₁ ≠ 0 ∧ s₂ ≠ 0 ∧ s₃ ≠ 0

/-- The exact shape of an exercise produced by `validateExercise`. -/
def ExerciseShape (e : JSVal) : Prop :=
  ∃ dy rs, e = .obj [("day", .str dy), ("routines", .arr rs)] ∧ ∀ r ∈ rs, RoutineShape r

/-- The exact shape of a meal produced by `validateMeal`: `foods` a sequence
of strings and `protein` a sequence of (possibly NaN) numbers. -/
def MealShape (m : JSVal) : Prop :=
  ∃ n fs ps, m = .obj [("name", .str n), ("foods", .arr fs), ("protein", .arr ps)] ∧
    (∀ f ∈ fs, ∃ s, f = .str s) ∧ (∀ p ∈ ps, ∃ q, p = .num q)

/-! ## Helper lemmas -/

theorem okBind {α β : Type} (a : α) (f : α → Except String β) :
    (Except.ok a >>= f) = f a := rfl

theorem errorBind {α β : Type} (e : String) (f : α → Except String β) :
    ((Except.error e : Except String α) >>= f) = .error e := rfl

theorem numCoerce_ne_zero (v : JSVal) (d : ℚ) (hd : d ≠ 0) : numCoerce v d ≠ 0 := by
  unfold numCoerce
  cases toNumber v with
  | none => exact hd
  | some q =>
    by_cases hq : q = 0
    · simp only [hq, if_pos]; exact hd
    · simp only [hq, if_neg, not_false_iff]; exact hq

theorem mapExcept_ok_mem {f : JSVal → Except String JSVal} :
    ∀ {xs ys : List JSVal}, mapExcept f xs = .ok ys → ∀ y ∈ ys, ∃ x ∈ xs, f x = .ok y := by
  intro xs
  induction xs with
  | nil =>
    intro ys h y hy
    simp only [mapExcept] at h
    cases h
    simp at hy
  | cons x xs ih =>
    intro ys h y hy
    simp only [mapExcept] at h
    cases hf : f x with
    | error e => rw [hf, errorBind] at h; cases h
    | ok y0 =>
      rw [hf, okBind] at h
      cases hm : mapExcept f xs with
      | error e => rw [hm, errorBind] at h; cases h
      | ok ys0 =>
        rw [hm, okBind] at h
        cases h
        rcases List.mem_cons.mp hy with rfl | hy2
        · exact ⟨x, List.mem_cons_self x xs, hf⟩
        · obtain ⟨x2, hx2, hfx2⟩ := ih hm y hy2
          exact ⟨x2, List.mem_cons_of_mem x hx2, hfx2⟩

theorem mapExcept_congr_id {f : JSVal → Except String JSVal} :
    ∀ {xs : List JSVal}, (∀ x ∈ xs, f x = .ok x) → mapExcept f xs = .ok xs := by
  intro xs
  induction xs with
  | nil => intro _; rfl
  | cons x xs ih =>
    intro h
    simp only [mapExcept]
    rw [h x (List.mem_cons_self x xs), okBind, ih (fun a ha => h a (List.mem_cons_of_mem x ha)), okBind]
    rfl

theorem jsArrayMap_ok {v : JSVal} {f : JSVal → Except String JSVal} {out : JSVal}
    (h : jsArrayMap v f = .ok out) :
    ∃ ys, out = .arr ys ∧ ∀ y ∈ ys, ∃ x, f x = .ok y := by
  unfold jsArrayMap at h
  cases hv : v.jsOr (.arr []) with
  | arr xs =>
    rw [hv] at h
    have h2 : (mapExcept f xs >>= fun ys => pure (.arr ys) : Except String JSVal) = .ok out := h
    cases hm : mapExcept f xs with
    | error e => rw [hm, errorBind] at h2; cases h2
    | ok ys =>
      rw [hm, okBind] at h2
      cases h2
      exact ⟨ys, rfl, fun y hy => (mapExcept_ok_mem hm y hy).imp (fun x hx => hx.2)⟩
  | undef => rw [hv] at h; exact Except.noConfusion h
  | null => rw [hv] at h; exact Except.noConfusion h
  | bool b => rw [hv] at h; exact Except.noConfusion h
  | num n => rw [hv] at h; exact Except.noConfusion h
  | str s => rw [hv] at h; exact Except.noConfusion h
  | obj fs => rw [hv] at h; exact Except.noConfusion h

theorem jsArrayMap_falsy {v : JSVal} (f : JSVal → Except String JSVal)
    (h : v.truthy = false) : jsArrayMap v f = .ok (.arr []) := by
  unfold jsArrayMap JSVal.jsOr
  rw [h]
  rfl

theorem jsArrayMap_arr (xs : List JSVal) (f : JSVal → Except String JSVal) :
    jsArrayMap (.arr xs) f = (mapExcept f xs >>= fun ys => pure (.arr ys)) := rfl

theorem validateRoutine_ok_shape {r out : JSVal} (h : validateRoutine r = .ok out) :
    RoutineShape out := by
  unfold validateRoutine at h
  cases h1 : r.getField "name" with
  | error e => rw [h1, errorBind] at h; exact Except.noConfusion h
  | ok name =>
  rw [h1, okBind] at h
  cases h2 : r.getField "sets" with
  | error e => rw [h2, errorBind] at h; exact Except.noConfusion h
  | ok sets =>
  rw [h2, okBind] at h
  cases h3 : r.getField "reps" with
  | error e => rw [h3, errorBind] at h; exact Except.noConfusion h
  | ok reps =>
  rw [h3, okBind] at h
  cases h4 : r.getField "duration" with
  | error e => rw [h4, errorBind] at h; exact Except.noConfusion h
  | ok duration =>
  rw [h4, okBind] at h
  cases h5 : r.getField "description" with
  | error e => rw [h5, errorBind] at h; exact Except.noConfusion h
  | ok description =>
  rw [h5, okBind] at h
  cases h
  exact ⟨_, _, _, _, _, rfl, numCoerce_ne_zero _ _ (by norm_num),
    numCoerce_ne_zero _ _ (by norm_num), numCoerce_ne_zero _ _ (by norm_num)⟩

theorem validateExercise_ok_shape {ex out : JSVal} (h : validateExercise ex = .ok out) :
    ExerciseShape out := by
  unfold validateExercise at h
  cases h1 : ex.getField "day" with
  | error e => rw [h1, errorBind] at h; exact Except.noConfusion h
  | ok day =>
  rw [h1, okBind] at h
  cases h2 : ex.getField "routines" with
  | error e => rw [h2, errorBind] at h; exact Except.noConfusion h
  | ok routines =>
  rw [h2, okBind] at h
  cases h3 : jsArrayMap routines validateRoutine with
  | error e => rw [h3, errorBind] at h; exact Except.noConfusion h
  | ok routines2 =>
  rw [h3, okBind] at h
  cases h
  obtain ⟨ys, rfl, hys⟩ := jsArrayMap_ok h3
  exact ⟨_, ys, rfl, fun r hr => by
    obtain ⟨x, hx⟩ := hys r hr
    exact validateRoutine_ok_shape hx⟩

theorem validateWorkoutPlan_ok_shape {x out : JSVal} (h : validateWorkoutPlan x = .ok out) :
    ∃ sch exs, out = .obj [("schedule", sch), ("exercises", .arr exs)] ∧
      sch.isArray = true ∧ ∀ e ∈ exs, ExerciseShape e := by
  unfold validateWorkoutPlan at h
  cases h1 : x.getField "schedule" with
  | error e => rw [h1, errorBind] at h; exact Except.noConfusion h
  | ok schedule =>
  rw [h1, okBind] at h
  cases h2 : x.getField "exercises" with
  | error e => rw [h2, errorBind] at h; exact Except.noConfusion h
  | ok exercises =>
  rw [h2, okBind] at h
  cases h3 : jsArrayMap exercises validateExercise with
  | error e => rw [h3, errorBind] at h; exact Except.noConfusion h
  | ok exercises2 =>
  rw [h3, okBind] at h
  cases h
  obtain ⟨ys, rfl, hys⟩ := jsArrayMap_ok h3
  refine ⟨_, ys, rfl, ?_, fun e he => ?_⟩
  · by_cases hs : schedule.isArray = true
    · rw [if_pos hs]; exact hs
    · rw [if_neg hs]; rfl
  · obtain ⟨x0, hx0⟩ := hys e he
    exact validateExercise_ok_shape hx0

theorem validateMeal_ok_eq {m out : JSVal} (h : validateMeal m = .ok out) :
    ∃ nv fv pv, m.getField "name" = .ok nv ∧ m.getField "foods" = .ok fv ∧
      m.getField "protein" = .ok pv ∧
      out = .obj [("name", .str (jsToString (nv.jsOr (.str "Unnamed Meal")))),
        ("foods", coerceFoods fv), ("protein", coerceProtein pv)] := by
  unfold validateMeal at h
  cases h1 : m.getField "name" with
  | error e => rw [h1, errorBind] at h; exact Except.noConfusion h
  | ok nv =>
  rw [h1, okBind] at h
  cases h2 : m.getField "foods" with
  | error e => rw [h2, errorBind] at h; exact Except.noConfusion h
  | ok fv =>
  rw [h2, okBind] at h
  cases h3 : m.getField "protein" with
  | error e => rw [h3, errorBind] at h; exact Except.noConfusion h
  | ok pv =>
  rw [h3, okBind] at h
  cases h
  exact ⟨nv, fv, pv, rfl, rfl, rfl, rfl⟩

theorem coerceFoods_shape (v : JSVal) :
    ∃ fs, coerceFoods v = .arr fs ∧ ∀ f ∈ fs, ∃ s, f = .str s := by
  cases v with
  | arr xs =>
    refine ⟨_, rfl, fun f hf => ?_⟩
    obtain ⟨x, _, rfl⟩ := List.mem_map.mp hf
    exact ⟨_, rfl⟩
  | undef => exact ⟨[], rfl, by simp⟩
  | null => exact ⟨[], rfl, by simp⟩
  | bool b => exact ⟨[], rfl, by simp⟩
  | num n => exact ⟨[], rfl, by simp⟩
  | str s => exact ⟨[], rfl, by simp⟩
  | obj fs => exact ⟨[], rfl, by simp⟩

theorem coerceProtein_shape (v : JSVal) :
    ∃ ps, coerceProtein v = .arr ps ∧ ∀ p ∈ ps, ∃ q, p = .num q := by
  cases v with
  | arr xs =>
    refine ⟨_, rfl, fun p hp => ?_⟩
    obtain ⟨x, _, rfl⟩ := List.mem_map.mp hp
    exact ⟨_, rfl⟩
  | undef => exact ⟨[], rfl, by simp⟩
  | null => exact ⟨[], rfl, by simp⟩
  | bool b => exact ⟨[], rfl, by simp⟩
  | num n => exact ⟨[], rfl, by simp⟩
  | str s => exact ⟨[], rfl, by simp⟩
  | obj fs => exact ⟨[], rfl, by simp⟩

theorem validateMeal_ok_shape {m out : JSVal} (h : validateMeal m = .ok out) :
    MealShape out := by
  obtain ⟨nv, fv, pv, _, _, _, rfl⟩ := validateMeal_ok_eq h
  obtain ⟨fs, hfs, hfss⟩ := coerceFoods_shape fv
  obtain ⟨ps, hps, hpss⟩ := coerceProtein_shape pv
  exact ⟨_, fs, ps, by rw [hfs, hps], hfss, hpss⟩

theorem validateDietPlan_ok_shape {x out : JSVal} (h : validateDietPlan x = .ok out) :
    ∃ dv mv ms, x.getField "dailyCalories" = .ok dv ∧ x.getField "meals" = .ok mv ∧
      jsArrayMap mv validateMeal = .ok (.arr ms) ∧
      out = .obj [("dailyCalories", .num (some (numCoerce dv 2000))), ("meals", .arr ms)] ∧
      ∀ m ∈ ms, MealShape m := by
  unfold validateDietPlan at h
  cases h1 : x.getField "dailyCalories" with
  | error e => rw [h1, errorBind] at h; exact Except.noConfusion h
  | ok dv =>
  rw [h1, okBind] at h
  cases h2 : x.getField "meals" with
  | error e => rw [h2, errorBind] at h; exact Except.noConfusion h
  | ok mv =>
  rw [h2, okBind] at h
  cases h3 : jsArrayMap mv validateMeal with
  | error e => rw [h3, errorBind] at h; exact Except.noConfusion h
  | ok meals2 =>
  rw [h3, okBind] at h
  cases h
  obtain ⟨ys, rfl, hys⟩ := jsArrayMap_ok h3
  refine ⟨dv, mv, ys, rfl, rfl, h3, rfl, fun m hm => ?_⟩
  obtain ⟨m0, hm0⟩ := hys m hm
  exact validateMeal_ok_shape hm0

theorem pureBind {α β : Type} (a : α) (f : α → Except String β) :
    ((pure a : Except String α) >>= f) = f a := rfl

theorem jsOr_str_of_ne {s : String} (h : s ≠ "") (v : JSVal) :
    (JSVal.str s).jsOr v = .str s := by
  simp [JSVal.jsOr, JSVal.truthy, h]

theorem numCoerce_num_some {q : ℚ} (h : q ≠ 0) (d : ℚ) :
    numCoerce (.num (some q)) d = q := by
  simp [numCoerce, toNumber, h]

theorem listMapSelf {α : Type} {f : α → α} :
    ∀ {xs : List α}, (∀ x ∈ xs, f x = x) → xs.map f = xs := by
  intro xs
  induction xs with
  | nil => intro _; rfl
  | cons x xs ih =>
    intro h
    simp only [List.map_cons]
    rw [h x (List.mem_cons_self x xs), ih (fun a ha => h a (List.mem_cons_of_mem x ha))]

theorem conformRoutine_of_shape {r : JSVal} (h : RoutineShape r) : conformRoutine r = true := by
  obtain ⟨n, s₁, s₂, s₃, d, rfl, _, _, _⟩ := h
  rfl

theorem conformExercise_of_shape {e : JSVal} (h : ExerciseShape e) : conformExercise e = true := by
  obtain ⟨dy, rs, rfl, hrs⟩ := h
  show (true && rs.all conformRoutine) = true
  rw [Bool.true_and]
  exact List.all_eq_true.mpr fun r hr => conformRoutine_of_shape (hrs r hr)

theorem conformWorkoutPlan_of {sch : JSVal} {exs : List JSVal} (hsch : sch.isArray = true)
    (hexs : ∀ e ∈ exs, ExerciseShape e) :
    conformWorkoutPlan (.obj [("schedule", sch), ("exercises", .arr exs)]) = true := by
  show (sch.isArray && exs.all conformExercise) = true
  rw [hsch, Bool.true_and]
  exact List.all_eq_true.mpr fun e he => conformExercise_of_shape (hexs e he)

theorem validateRoutine_fix {n d : String} {s₁ s₂ s₃ : ℚ} (hn : n ≠ "") (hd : d ≠ "")
    (h1 : s₁ ≠ 0) (h2 : s₂ ≠ 0) (h3 : s₃ ≠ 0) :
    validateRoutine (.obj [("name", .str n), ("sets", .num (some s₁)), ("reps", .num (some s₂)),
      ("duration", .num (some s₃)), ("description", .str d)]) =
    .ok (.obj [("name", .str n), ("sets", .num (some s₁)), ("reps", .num (some s₂)),
      ("duration", .num (some s₃)), ("description", .str d)]) := by
  show Except.ok (JSVal.obj [
    ("name", .str (jsToString ((JSVal.str n).jsOr (.str "Unnamed Routine")))),
    ("sets", .num (some (numCoerce (.num (some s₁)) 1))),
    ("reps", .num (some (numCoerce (.num (some s₂)) 10))),
    ("duration", .num (some (numCoerce (.num (some s₃)) 15))),
    ("description", .str (jsToString ((JSVal.str d).jsOr (.str "No description"))))]) = _
  rw [jsOr_str_of_ne hn, jsOr_str_of_ne hd, numCoerce_num_some h1, numCoerce_num_some h2,
    numCoerce_num_some h3]
  rfl

theorem validateExercise_fix {dy : String} {rs : List JSVal} (hdy : dy ≠ "")
    (hrs : ∀ r ∈ rs, validateRoutine r = .ok r) :
    validateExercise (.obj [("day", .str dy), ("routines", .arr rs)]) =
    .ok (.obj [("day", .str dy), ("routines", .arr rs)]) := by
  show (jsArrayMap (.arr rs) validateRoutine >>= fun routines2 =>
    pure (.obj [("day", .str (jsToString ((JSVal.str dy).jsOr (.str "Unknown")))),
      ("routines", routines2)]) : Except String JSVal) = _
  rw [jsArrayMap_arr, mapExcept_congr_id hrs, okBind, pureBind, jsOr_str_of_ne hdy]
  rfl

theorem validateWorkoutPlan_fix {sch : JSVal} {exs : List JSVal} (hsch : sch.isArray = true)
    (hexs : ∀ e ∈ exs, validateExercise e = .ok e) :
    validateWorkoutPlan (.obj [("schedule", sch), ("exercises", .arr exs)]) =
    .ok (.obj [("schedule", sch), ("exercises", .arr exs)]) := by
  show (jsArrayMap (.arr exs) validateExercise >>= fun exercises2 =>
    pure (.obj [("schedule", if sch.isArray then sch else .arr []),
      ("exercises", exercises2)]) : Except String JSVal) = _
  rw [jsArrayMap_arr, mapExcept_congr_id hexs, okBind, pureBind, if_pos hsch]
  rfl

theorem validateMeal_fix {n : String} {fs ps : List JSVal} (hn : n ≠ "")
    (hfs : ∀ f ∈ fs, ∃ s, f = .str s) (hps : ∀ p ∈ ps, ∃ q, p = .num q) :
    validateMeal (.obj [("name", .str n), ("foods", .arr fs), ("protein", .arr ps)]) =
    .ok (.obj [("name", .str n), ("foods", .arr fs), ("protein", .arr ps)]) := by
  show Except.ok (JSVal.obj [
    ("name", .str (jsToString ((JSVal.str n).jsOr (.str "Unnamed Meal")))),
    ("foods", coerceFoods (.arr fs)), ("protein", coerceProtein (.arr ps))]) = _
  have hf : coerceFoods (.arr fs) = .arr fs := by
    show JSVal.arr (fs.map fun x => .str (jsToString x)) = .arr fs
    rw [listMapSelf (fun f hf => by obtain ⟨s, rfl⟩ := hfs f hf; rfl)]
  have hp : coerceProtein (.arr ps) = .arr ps := by
    show JSVal.arr (ps.map fun x => .num (toNumber x)) = .arr ps
    rw [listMapSelf (fun p hp => by obtain ⟨q, rfl⟩ := hps p hp; rfl)]
  rw [jsOr_str_of_ne hn, hf, hp]
  rfl

theorem validateDietPlan_fix {dc : ℚ} {ms : List JSVal} (hdc : dc ≠ 0)
    (hms : ∀ m ∈ ms, validateMeal m = .ok m) :
    validateDietPlan (.obj [("dailyCalories", .num (some dc)), ("meals", .arr ms)]) =
    .ok (.obj [("dailyCalories", .num (some dc)), ("meals", .arr ms)]) := by
  show (jsArrayMap (.arr ms) validateMeal >>= fun meals2 =>
    pure (.obj [("dailyCalories", .num (some (numCoerce (.num (some dc)) 2000))),
      ("meals", meals2)]) : Except String JSVal) = _
  rw [jsArrayMap_arr, mapExcept_congr_id hms, okBind, pureBind, numCoerce_num_some hdc]
  rfl

theorem planPipeline_intake (uid age weight goal : JSVal) (gen : String → Except String String)
    (parse : String → Except String JSVal) :
    planPipeline (intakePayload uid age weight goal) gen parse =
      (gen (workoutPrompt age weight goal) >>= fun workoutText =>
       gen (dietPrompt goal) >>= fun dietText =>
       parse workoutText >>= fun workoutRaw =>
       validateWorkoutPlan workoutRaw >>= fun wp =>
       parse dietText >>= fun dietRaw =>
       validateDietPlan dietRaw >>= fun dp =>
       pure (uid, goal, wp, dp)) := rfl

theorem generateProgram_of_error {payload : JSVal} {gen : String → Except String String}
    {parse : String → Except String JSVal} {plans : List Plan} {e : String}
    (h : planPipeline payload gen parse = .error e) :
    generateProgram payload gen parse plans = (500, none, plans) := by
  unfold generateProgram
  rw [h]

theorem generateProgram_of_ok {payload : JSVal} {gen : String → Except String String}
    {parse : String → Except String JSVal} {plans : List Plan} {uid goal wp dp : JSVal}
    (h : planPipeline payload gen parse = .ok (uid, goal, wp, dp)) :
    generateProgram payload gen parse plans =
      (200, some plans.length, plans ++
        [{ userId := uid, name := jsToString goal ++ " Plan",
           workoutPlan := wp, dietPlan := dp, isActive := true }]) := by
  unfold generateProgram
  rw [h]
  rfl

/-! ## Claim theorems -/

/-- C1 (counterexample): contrary to the claim, `validateWorkoutPlan` is not
total over unknown — applied to `null` it throws a `TypeError` (JavaScript
property access `plan.schedule` on `null` throws). -/
theorem C1_counterexample_null_throws :
    validateWorkoutPlan JSVal.null = .error "TypeError: null" := rfl

/-- C1 (amended): whenever `validateWorkoutPlan` returns (does not throw),
the result satisfies every WorkoutPlan field-type invariant: `schedule` and
`exercises` are sequences, every exercise has a string `day` and a sequence
of routines, and every routine has string `name`/`description` and numeric
`sets`/`reps`/`duration`. -/
theorem C1_validateWorkoutPlan_ok_conformant (x out : JSVal)
    (h : validateWorkoutPlan x = .ok out) : conformWorkoutPlan out = true := by
  obtain ⟨sch, exs, rfl, hsch, hexs⟩ := validateWorkoutPlan_ok_shape h
  exact conformWorkoutPlan_of hsch hexs

theorem C1_witness :
    validateWorkoutPlan (.obj []) = .ok (.obj [("schedule", .arr []), ("exercises", .arr [])]) ∧
    conformWorkoutPlan (.obj [("schedule", .arr []), ("exercises", .arr [])]) = true :=
  ⟨rfl, C1_validateWorkoutPlan_ok_conformant (.obj []) _ rfl⟩

/-- C2 (counterexample): contrary to the claim, a genuine number is not
always left unchanged — a raw `sets` of `0` is falsy after `Number(...)`, so
`Number(r.sets) || 1` replaces it by the default `1`. -/
theorem C2_counterexample_zero_defaulted :
    validateWorkoutPlan (.obj [("exercises",
        .arr [.obj [("routines", .arr [.obj [("sets", .num (some 0))]])]])]) =
      .ok (.obj [("schedule", .arr []), ("exercises", .arr [.obj [("day", .str "Unknown"),
        ("routines", .arr [.obj [("name", .str "Unnamed Routine"), ("sets", .num (some 1)),
          ("reps", .num (some 10)), ("duration", .num (some 15)),
          ("description", .str "No description")]])]])]) ∧ (1 : ℚ) ≠ 0 :=
  ⟨rfl, by norm_num⟩

/-- C2 (amended): the coercion used for `sets`/`reps`/`duration`/
`dailyCalories` is `Number(v) || d`: a value whose numeric conversion is a
nonzero non-NaN number yields that number (covering nonzero numeric strings
and genuine nonzero numbers); every other value — `null`, `undefined`,
non-numeric strings, plain objects, but also `0`, `"0"` and `NaN` — yields
the default. `protein` entries are coerced by plain `Number` with no
default. -/
theorem C2_numeric_coercion (v : JSVal) (d : ℚ) :
    (∀ q, toNumber v = some q → q ≠ 0 → numCoerce v d = q) ∧
    ((toNumber v = none ∨ toNumber v = some 0) → numCoerce v d = d) ∧
    (∀ xs : List JSVal, coerceProtein (.arr xs) = .arr (xs.map fun x => .num (toNumber x))) := by
  refine ⟨?_, ?_, fun xs => rfl⟩
  · intro q hq hq0
    unfold numCoerce
    rw [hq]
    simp [hq0]
  · intro h
    unfold numCoerce
    rcases h with h | h
    · rw [h]
    · rw [h]; simp

theorem C2_witness : numCoerce (.str "10") 1 = 10 ∧ numCoerce .null 15 = 15 :=
  ⟨(C2_numeric_coercion (.str "10") 1).1 10 (by decide) (by decide),
   (C2_numeric_coercion .null 15).2.1 (Or.inr (by decide))⟩

/-- C4 (counterexample): contrary to the claim, the resulting
`dailyCalories` is not always a positive integer — a supplied `-5` is
truthy after numeric conversion, so it is preserved as is. -/
theorem C4_counterexample_negative_preserved :
    validateDietPlan (.obj [("dailyCalories", .num (some (-5)))]) =
      .ok (.obj [("dailyCalories", .num (some (-5))), ("meals", .arr [])]) ∧
    ¬ (0 < (-5 : ℚ)) :=
  ⟨rfl, by norm_num⟩

/-- C4 (amended): the resulting `dailyCalories` is always
`Number(raw) || 2000` — a nonzero non-NaN number: exactly `2000` when the
raw value is missing or invalid (converts to NaN or 0), and otherwise the
converted raw value, which may be negative or fractional rather than a
positive integer. -/
theorem C4_dailyCalories_coercion (x out v : JSVal)
    (hok : validateDietPlan x = .ok out) (hv : x.getField "dailyCalories" = .ok v) :
    lookupField out "dailyCalories" = some (.num (some (numCoerce v 2000))) ∧
    numCoerce v 2000 ≠ 0 ∧
    ((toNumber v = none ∨ toNumber v = some 0) → numCoerce v 2000 = 2000) := by
  obtain ⟨dv, mv, ms, hdv, hmv, hjs, rfl, hms⟩ := validateDietPlan_ok_shape hok
  have hveq : v = dv := by rw [hv] at hdv; exact Except.ok.inj hdv
  subst hveq
  refine ⟨rfl, numCoerce_ne_zero _ _ (by norm_num), ?_⟩
  intro h
  unfold numCoerce
  rcases h with h | h
  · rw [h]
  · rw [h]; simp

theorem C4_witness :
    lookupField (.obj [("dailyCalories", .num (some 2000)), ("meals", .arr [])]) "dailyCalories" =
      some (.num (some 2000)) ∧ (2000 : ℚ) ≠ 0 := by
  have h := C4_dailyCalories_coercion (.obj [])
    (.obj [("dailyCalories", .num (some 2000)), ("meals", .arr [])]) .undef rfl rfl
  exact ⟨h.1, h.2.1⟩

/-- C5 (counterexample): contrary to the claim, a truthy non-sequence
`meals` does not become an empty sequence — `(plan.meals || []).map` throws
a `TypeError` because a string has no `.map`. -/
theorem C5_counterexample_truthy_meals_throws :
    validateDietPlan (.obj [("meals", .str "x")]) = .error "TypeError: not a function" := rfl

/-- C5 (amended): a falsy `meals` (missing, `null`, etc.) becomes the empty
sequence (truthy non-sequences instead throw); a non-sequence `foods` or
`protein` becomes the empty sequence; when they are sequences, each `foods`
element is coerced via `String` and each `protein` element via `Number`. -/
theorem C5_meals_foods_protein_coercion :
    (∀ x out v, validateDietPlan x = .ok out → x.getField "meals" = .ok v →
      v.truthy = false → lookupField out "meals" = some (.arr [])) ∧
    (∀ m nv fv pv, m.getField "name" = .ok nv → m.getField "foods" = .ok fv →
      m.getField "protein" = .ok pv →
      validateMeal m = .ok (.obj [("name", .str (jsToString (nv.jsOr (.str "Unnamed Meal")))),
        ("foods", coerceFoods fv), ("protein", coerceProtein pv)])) ∧
    (∀ v : JSVal, v.isArray = false → coerceFoods v = .arr [] ∧ coerceProtein v = .arr []) ∧
    (∀ xs : List JSVal, coerceFoods (.arr xs) = .arr (xs.map fun x => .str (jsToString x)) ∧
      coerceProtein (.arr xs) = .arr (xs.map fun x => .num (toNumber x))) := by
  refine ⟨?_, ?_, ?_, fun xs => ⟨rfl, rfl⟩⟩
  · intro x out v hok hv hfalsy
    obtain ⟨dv, mv, ms, hdv, hmv, hjs, rfl, hms⟩ := validateDietPlan_ok_shape hok
    have hveq : v = mv := by rw [hv] at hmv; exact Except.ok.inj hmv
    subst hveq
    have h0 : jsArrayMap v validateMeal = .ok (.arr []) := jsArrayMap_falsy _ hfalsy
    rw [hjs] at h0
    have : JSVal.arr ms = .arr [] := Except.ok.inj h0
    have hms0 : ms = [] := by cases this; rfl
    subst hms0
    rfl
  · intro m nv fv pv hn hf hp
    unfold validateMeal
    rw [hn, okBind, hf, okBind, hp, okBind]
    rfl
  · intro v hv
    cases v with
    | arr xs => exact Bool.noConfusion hv
    | undef => exact ⟨rfl, rfl⟩
    | null => exact ⟨rfl, rfl⟩
    | bool b => exact ⟨rfl, rfl⟩
    | num n => exact ⟨rfl, rfl⟩
    | str s => exact ⟨rfl, rfl⟩
    | obj fs => exact ⟨rfl, rfl⟩

theorem C5_witness :
    lookupField (.obj [("dailyCalories", .num (some 2000)), ("meals", .arr [])]) "meals" =
      some (.arr []) :=
  C5_meals_foods_protein_coercion.1 (.obj []) _ .undef rfl rfl rfl

/-- C8 (confirmed): `validateWorkoutPlan` applied to
`\x7b exercises: [\x7b day: "Monday", routines: [\x7b name: "Squats" \x7d] \x7d] \x7d`
preserves the day and the routine name and fills in the defaults `sets 1`,
`reps 10`, `duration 15`, `description "No description"`. -/
theorem C8_squats_defaults :
    validateWorkoutPlan (.obj [("exercises", .arr [.obj [("day", .str "Monday"),
        ("routines", .arr [.obj [("name", .str "Squats")]])]])]) =
      .ok (.obj [("schedule", .arr []), ("exercises", .arr [.obj [("day", .str "Monday"),
        ("routines", .arr [.obj [("name", .str "Squats"), ("sets", .num (some 1)),
          ("reps", .num (some 10)), ("duration", .num (some 15)),
          ("description", .str "No description")]])]])]) := rfl

/-- C10 (confirmed): a routine whose `name` is absent (`undefined`), `null`
or the empty string gets the fallback name `"Unnamed Routine"`, and a meal
in the same situation gets `"Unnamed Meal"`. -/
theorem C10_unnamed_fallbacks (v : JSVal) (h : v = .undef ∨ v = .null ∨ v = .str "") :
    validateRoutine (.obj [("name", v)]) = .ok (.obj [("name", .str "Unnamed Routine"),
      ("sets", .num (some 1)), ("reps", .num (some 10)), ("duration", .num (some 15)),
      ("description", .str "No description")]) ∧
    validateMeal (.obj [("name", v)]) = .ok (.obj [("name", .str "Unnamed Meal"),
      ("foods", .arr []), ("protein", .arr [])]) := by
  rcases h with rfl | rfl | rfl <;> exact ⟨rfl, rfl⟩

theorem C10_witness :
    validateRoutine (.obj [("name", JSVal.null)]) = .ok (.obj [("name", .str "Unnamed Routine"),
      ("sets", .num (some 1)), ("reps", .num (some 10)), ("duration", .num (some 15)),
      ("description", .str "No description")]) ∧
    validateMeal (.obj [("name", JSVal.null)]) = .ok (.obj [("name", .str "Unnamed Meal"),
      ("foods", .arr []), ("protein", .arr [])]) :=
  C10_unnamed_fallbacks .null (Or.inr (Or.inl rfl))

/-- C3 (confirmed): any generative-model or JSON-parse failure aborts
`/vapi/generate-program` before `createPlan`: the store is unchanged (zero
inserts) and a 500 failure response is returned. In particular a diet-call
failure after a successful workout call results in zero inserts. -/
theorem C3_failure_aborts_without_insert (plans : List Plan)
    (gen : String → Except String String) (parse : String → Except String JSVal)
    (uid age weight goal : JSVal) :
    (∀ e, gen (workoutPrompt age weight goal) = .error e →
      generateProgram (intakePayload uid age weight goal) gen parse plans = (500, none, plans)) ∧
    (∀ t e, gen (workoutPrompt age weight goal) = .ok t → gen (dietPrompt goal) = .error e →
      generateProgram (intakePayload uid age weight goal) gen parse plans = (500, none, plans)) ∧
    (∀ t u e, gen (workoutPrompt age weight goal) = .ok t → gen (dietPrompt goal) = .ok u →
      parse t = .error e →
      generateProgram (intakePayload uid age weight goal) gen parse plans = (500, none, plans)) ∧
    (∀ t u w wp e, gen (workoutPrompt age weight goal) = .ok t → gen (dietPrompt goal) = .ok u →
      parse t = .ok w → validateWorkoutPlan w = .ok wp → parse u = .error e →
      generateProgram (intakePayload uid age weight goal) gen parse plans = (500, none, plans)) := by
  refine ⟨?_, ?_, ?_, ?_⟩
  · intro e hW
    apply generateProgram_of_error
    rw [planPipeline_intake, hW, errorBind]
  · intro t e hW hD
    apply generateProgram_of_error
    rw [planPipeline_intake, hW, okBind, hD, errorBind]
  · intro t u e hW hD hP
    apply generateProgram_of_error
    rw [planPipeline_intake, hW, okBind, hD, okBind, hP, errorBind]
  · intro t u w wp e hW hD hP hV hQ
    apply generateProgram_of_error
    rw [planPipeline_intake, hW, okBind, hD, okBind, hP, okBind, hV, okBind, hQ, errorBind]

set_option maxRecDepth 8192 in
theorem C3_witness :
    generateProgram (intakePayload (.str "u1") (.num (some 30)) (.num (some 70)) (.str "build muscle"))
      (fun s => if s = workoutPrompt (.num (some 30)) (.num (some 70)) (.str "build muscle")
        then .ok "W" else .error "diet model down")
      (fun _ => .ok (.obj [])) [] = (500, none, []) :=
  (C3_failure_aborts_without_insert [] _ _ (.str "u1") (.num (some 30)) (.num (some 70))
    (.str "build muscle")).2.1 "W" "diet model down" (by rfl) (by rfl)

/-- C6 (confirmed): on the success path the orchestrator performs exactly
one insert — the final store is the initial store with exactly one new plan
appended, so no prior plan is updated or deleted — whose payload carries the
validated `workoutPlan` and `dietPlan`, the user id from the payload, the
name built from the goal, and `isActive := true`; the response is 200 with
the identifier assigned by the store. -/
theorem C6_success_inserts_exactly_once (plans : List Plan)
    (gen : String → Except String String) (parse : String → Except String JSVal)
    (uid age weight goal : JSVal) (t u : String) (w d wp dp : JSVal)
    (hW : gen (workoutPrompt age weight goal) = .ok t)
    (hD : gen (dietPrompt goal) = .ok u)
    (hPW : parse t = .ok w) (hVW : validateWorkoutPlan w = .ok wp)
    (hPD : parse u = .ok d) (hVD : validateDietPlan d = .ok dp) :
    generateProgram (intakePayload uid age weight goal) gen parse plans =
      (200, some plans.length, plans ++
        [{ userId := uid, name := jsToString goal ++ " Plan",
           workoutPlan := wp, dietPlan := dp, isActive := true }]) := by
  apply generateProgram_of_ok
  rw [planPipeline_intake, hW, okBind, hD, okBind, hPW, okBind, hVW, okBind, hPD, okBind,
    hVD, okBind]
  rfl

set_option maxRecDepth 8192 in
theorem C6_witness :
    generateProgram (intakePayload (.str "u1") (.num (some 30)) (.num (some 70)) (.str "build muscle"))
      (fun s => if s = workoutPrompt (.num (some 30)) (.num (some 70)) (.str "build muscle")
        then .ok "W" else .ok "D")
      (fun t => if t = "W" then .ok (.obj []) else .ok (.obj [("dailyCalories", .num (some 2200))]))
      [] =
    (200, some 0,
      [{ userId := .str "u1", name := jsToString (JSVal.str "build muscle") ++ " Plan",
         workoutPlan := .obj [("schedule", .arr []), ("exercises", .arr [])],
         dietPlan := .obj [("dailyCalories", .num (some 2200)), ("meals", .arr [])],
         isActive := true }]) :=
  C6_success_inserts_exactly_once [] _ _ (.str "u1") (.num (some 30)) (.num (some 70))
    (.str "build muscle") "W" "D" (.obj []) (.obj [("dailyCalories", .num (some 2200))])
    (.obj [("schedule", .arr []), ("exercises", .arr [])])
    (.obj [("dailyCalories", .num (some 2200)), ("meals", .arr [])])
    (by rfl) (by rfl) (by rfl) (by rfl) (by rfl) (by rfl)

/-- C7 (counterexample): contrary to the claim, the validators are not
idempotent on their own outputs — a truthy raw `day` of `[]` stringifies to
`""` on the first pass, and the falsy `""` is re-defaulted to `"Unknown"` on
the second pass, so re-validation is not the identity. -/
theorem C7_counterexample_empty_day :
    validateWorkoutPlan (.obj [("exercises", .arr [.obj [("day", .arr [])]])]) =
      .ok (.obj [("schedule", .arr []),
        ("exercises", .arr [.obj [("day", .str ""), ("routines", .arr [])]])]) ∧
    validateWorkoutPlan (.obj [("schedule", .arr []),
        ("exercises", .arr [.obj [("day", .str ""), ("routines", .arr [])]])]) =
      .ok (.obj [("schedule", .arr []),
        ("exercises", .arr [.obj [("day", .str "Unknown"), ("routines", .arr [])]])]) ∧
    ("" : String) ≠ "Unknown" :=
  ⟨rfl, rfl, by decide⟩

/-- C7 (amended): the validators are idempotent on every validated output
whose coerced string fields (`day`, routine `name`/`description`, meal
`name`) are nonempty: re-validating such a plan returns the deep-equal same
structure. (Outputs with a coerced empty string — producible only from
truthy raw values that stringify to `""`, such as `[]` — are re-defaulted on
the second pass.) -/
theorem C7_validators_idempotent_modulo_empty_strings :
    (∀ x p, validateWorkoutPlan x = .ok p → workoutNoEmptyStr p = true →
      validateWorkoutPlan p = .ok p) ∧
    (∀ x p, validateDietPlan x = .ok p → dietNoEmptyStr p = true →
      validateDietPlan p = .ok p) := by
  constructor
  · intro x p hv hne
    obtain ⟨sch, exs, rfl, hsch, hexs⟩ := validateWorkoutPlan_ok_shape hv
    have hne2 : exs.all exerciseNoEmptyStr = true := hne
    apply validateWorkoutPlan_fix hsch
    intro e he
    obtain ⟨dy, rs, rfl, hrs⟩ := hexs e he
    have he2 : ((dy != "") && rs.all routineNoEmptyStr) = true := List.all_eq_true.mp hne2 _ he
    obtain ⟨hdy, hrs2⟩ := Bool.and_eq_true_iff.mp he2
    apply validateExercise_fix (by simpa using hdy)
    intro r hr
    obtain ⟨n, s₁, s₂, s₃, d, rfl, h1, h2, h3⟩ := hrs r hr
    have hr2 : ((n != "") && (d != "")) = true := List.all_eq_true.mp hrs2 _ hr
    obtain ⟨hn, hd⟩ := Bool.and_eq_true_iff.mp hr2
    exact validateRoutine_fix (by simpa using hn) (by simpa using hd) h1 h2 h3
  · intro x p hv hne
    obtain ⟨dv, mv, ms, hdv, hmv, hjs, rfl, hms⟩ := validateDietPlan_ok_shape hv
    have hne2 : ms.all mealNoEmptyStr = true := hne
    apply validateDietPlan_fix (numCoerce_ne_zero _ _ (by norm_num))
    intro m hm
    obtain ⟨n, fs, ps, rfl, hfs, hps⟩ := hms m hm
    have hm2 : (n != "") = true := List.all_eq_true.mp hne2 _ hm
    exact validateMeal_fix (by simpa using hm2) hfs hps

theorem C7_witness :
    validateWorkoutPlan (.obj [("schedule", .arr []), ("exercises", .arr [])]) =
      .ok (.obj [("schedule", .arr []), ("exercises", .arr [])]) ∧
    validateDietPlan (.obj [("dailyCalories", .num (some 2000)), ("meals", .arr [])]) =
      .ok (.obj [("dailyCalories", .num (some 2000)), ("meals", .arr [])]) :=
  ⟨C7_validators_idempotent_modulo_empty_strings.1 (.obj []) _ rfl rfl,
   C7_validators_idempotent_modulo_empty_strings.2 (.obj []) _ rfl rfl⟩

/-- C9 (confirmed): `syncUser` is an idempotent insert guarded by `clerkId`:
if a user with the given `clerkId` exists the table is unchanged; otherwise
exactly one user document with the given fields is appended; and a repeated
call with the same `clerkId` (any other arguments) is a no-op, so at most
one user per `clerkId` is ever created. -/
theorem C9_syncUser_guarded_insert (users : List User) (c e n : String) (i : Option String) :
    ((∃ u ∈ users, u.clerkId = c) → syncUser users c e n i = users) ∧
    ((∀ u ∈ users, u.clerkId ≠ c) → syncUser users c e n i =
      users ++ [{ clerkId := c, email := e, name := n, image := i }]) ∧
    (∀ e2 n2 : String, ∀ i2 : Option String,
      syncUser (syncUser users c e n i) c e2 n2 i2 = syncUser users c e n i) := by
  refine ⟨?_, ?_, ?_⟩
  · rintro ⟨u, hu, hc⟩
    have hs : (users.find? (fun u => u.clerkId == c)).isSome :=
      List.find?_isSome.mpr ⟨u, hu, by simp [hc]⟩
    obtain ⟨u0, hu0⟩ := Option.isSome_iff_exists.mp hs
    unfold syncUser
    rw [hu0]
  · intro h
    have hn0 : users.find? (fun u => u.clerkId == c) = none :=
      List.find?_eq_none.mpr fun x hx => by simp [h x hx]
    unfold syncUser
    rw [hn0]
  · intro e2 n2 i2
    cases hf : users.find? (fun u => u.clerkId == c) with
    | some u0 =>
      have h1 : syncUser users c e n i = users := by unfold syncUser; rw [hf]
      rw [h1]
      unfold syncUser
      rw [hf]
    | none =>
      have h1 : syncUser users c e n i =
          users ++ [{ clerkId := c, email := e, name := n, image := i }] := by
        unfold syncUser; rw [hf]
      rw [h1]
      unfold syncUser
      rw [List.find?_append, hf]
      simp

theorem C9_witness :
    syncUser [] "c1" "e@x" "nm" none =
      [{ clerkId := "c1", email := "e@x", name := "nm", image := none }] ∧
    syncUser (syncUser [] "c1" "e@x" "nm" none) "c1" "other" "other2" none =
      syncUser [] "c1" "e@x" "nm" none :=
  ⟨(C9_syncUser_guarded_insert [] "c1" "e@x" "nm" none).2.1 (by simp),
   (C9_syncUser_guarded_insert [] "c1" "e@x" "nm" none).2.2 "other" "other2" none⟩
